import Mathlib

/-!
Verification development for the Bluetooth device/session manager of RPiPySystem
(`bluetooth_service`): a shallow embedding of `BluetoothManager`
(`bluetooth_service/utils/bluetooth_manager.py`) and `BluetoothConnection`
(`bluetooth_service/models/bluetooth_connection.py`), together with theorems about
the embedded operations.

Modelling conventions:
- byte strings are lists of byte values (`Bytes := List Nat`);
- timestamps (`datetime.now()`) are abstract ticks (`Nat`) supplied by the caller;
- the external D-Bus / PyBluez / bluetoothctl world is a `World` record of oracles:
  `objs i` is the snapshot returned by the i-th `GetManagedObjects` call, the shell
  is a scripted list of output events, socket operations are boolean oracles;
- Python exceptions become `Except BtError`; since side effects persist when an
  exception propagates, stateful manager operations return `Except BtError α × MgrState`;
- Python object references to live sessions are modelled by a registry
  (`MgrState.sessions`, a list of every session constructed) with the connection
  table mapping addresses to registry indices.
-/

namespace RPiBt

/-- Byte strings are modelled as lists of byte values. -/
abbrev Bytes := List Nat

/-- Drop trailing elements satisfying `p` (Python `rstrip` over a fixed set). -/
def rstripBy {α : Type} (p : α → Bool) (l : List α) : List α :=
  (l.reverse.dropWhile p).reverse

/-- Source `BluetoothConnection._normalize_bytes`: cuts off the final CR/LF bytes
(Python `data.rstrip(b'\r\n')`). -/
def normalize_bytes (data : Bytes) : Bytes :=
  rstripBy (fun b => b == 13 || b == 10) data

/-- Source `BluetoothConnection._normalize_text`: cuts off the final CR/LF characters
(Python `text.rstrip('\r\n')`). -/
def normalize_text (s : String) : String :=
  String.mk (rstripBy (fun c => c == '\r' || c == '\n') s.toList)

/-- UTF-8 encoding of a single code point (Python `str.encode('utf-8')`, per char). -/
def utf8EncodeChar (c : Char) : Bytes :=
  let n := c.toNat
  if n < 0x80 then [n]
  else if n < 0x800 then [0xC0 + n / 0x40, 0x80 + n % 0x40]
  else if n < 0x10000 then [0xE0 + n / 0x1000, 0x80 + n / 0x40 % 0x40, 0x80 + n % 0x40]
  else [0xF0 + n / 0x40000, 0x80 + n / 0x1000 % 0x40, 0x80 + n / 0x40 % 0x40, 0x80 + n % 0x40]

/-- Python `str.encode('utf-8')`. -/
def utf8Encode (s : String) : Bytes :=
  (s.toList.map utf8EncodeChar).flatten

/-- UTF-8 decoding that skips invalid bytes, fuelled (the fuel is an upper bound on
the number of bytes left, so it never runs out when called through
`utf8DecodeIgnore`). Models Python `bytes.decode('utf-8', errors='ignore')`. -/
def utf8DecodeIgnoreAux : Nat → Bytes → List Char
  | 0, _ => []
  | _, [] => []
  | fuel + 1, b :: rest =>
    if b < 0x80 then
      Char.ofNat b :: utf8DecodeIgnoreAux fuel rest
    else if 0xC2 ≤ b && b ≤ 0xDF then
      match rest with
      | [] => []
      | c1 :: rest2 =>
        if 0x80 ≤ c1 && c1 ≤ 0xBF then
          Char.ofNat ((b - 0xC0) * 0x40 + (c1 - 0x80)) :: utf8DecodeIgnoreAux fuel rest2
        else
          utf8DecodeIgnoreAux fuel rest
    else if 0xE0 ≤ b && b ≤ 0xEF then
      match rest with
      | [] => []
      | c1 :: rest2 =>
        let lo1 := if b == 0xE0 then 0xA0 else 0x80
        let hi1 := if b == 0xED then 0x9F else 0xBF
        if lo1 ≤ c1 && c1 ≤ hi1 then
          match rest2 with
          | [] => []
          | c2 :: rest3 =>
            if 0x80 ≤ c2 && c2 ≤ 0xBF then
              Char.ofNat ((b - 0xE0) * 0x1000 + (c1 - 0x80) * 0x40 + (c2 - 0x80)) ::
                utf8DecodeIgnoreAux fuel rest3
            else
              utf8DecodeIgnoreAux fuel rest2
        else
          utf8DecodeIgnoreAux fuel rest
    else if 0xF0 ≤ b && b ≤ 0xF4 then
      match rest with
      | [] => []
      | c1 :: rest2 =>
        let lo1 := if b == 0xF0 then 0x90 else 0x80
        let hi1 := if b == 0xF4 then 0x8F else 0xBF
        if lo1 ≤ c1 && c1 ≤ hi1 then
          match rest2 with
          | [] => []
          | c2 :: rest3 =>
            if 0x80 ≤ c2 && c2 ≤ 0xBF then
              match rest3 with
              | [] => []
              | c3 :: rest4 =>
                if 0x80 ≤ c3 && c3 ≤ 0xBF then
                  Char.ofNat ((b - 0xF0) * 0x40000 + (c1 - 0x80) * 0x1000 +
                      (c2 - 0x80) * 0x40 + (c3 - 0x80)) :: utf8DecodeIgnoreAux fuel rest4
                else
                  utf8DecodeIgnoreAux fuel rest3
            else
              utf8DecodeIgnoreAux fuel rest2
        else
          utf8DecodeIgnoreAux fuel rest
    else
      utf8DecodeIgnoreAux fuel rest

/-- Python `bytes.decode('utf-8', errors='ignore')`. -/
def utf8DecodeIgnore (data : Bytes) : String :=
  String.mk (utf8DecodeIgnoreAux data.length data)

/-- Python truthiness of an optional string (`None` and `""` are falsy). -/
def pyTruthyStr : Option String → Bool
  | some s => !(s == "")
  | none => false

/-- Python truthiness of optional bytes (`None` and `b""` are falsy). -/
def pyTruthyBytes : Option Bytes → Bool
  | some b => !b.isEmpty
  | none => false

/-- Python `a or b` for an optional string `a` (`None` and `""` fall through to `b`). -/
def pyOrStr (a : Option String) (b : String) : String :=
  match a with
  | some s => if s == "" then b else s
  | none => b

/-- Python `str.strip()`: drop leading and trailing whitespace. -/
def pyStrip (s : String) : String :=
  String.mk (rstripBy Char.isWhitespace (s.toList.dropWhile Char.isWhitespace))

/-- Python `str.upper()` (ASCII). -/
def pyUpper (s : String) : String := String.mk (s.toList.map Char.toUpper)

/-- Python `str.lower()` (ASCII). -/
def pyLower (s : String) : String := String.mk (s.toList.map Char.toLower)

/-- Python `c in s` for a single character. -/
def pyContainsChar (s : String) (c : Char) : Bool := s.toList.contains c

/-- Python `s.startswith(pre)`. -/
def pyStartsWith (s pre : String) : Bool := pre.toList.isPrefixOf s.toList

/-- Contiguous-sublist test (structural helper for the substring test). -/
def subOf (needle : List Char) : List Char → Bool
  | [] => needle.isEmpty
  | c :: rest => needle.isPrefixOf (c :: rest) || subOf needle rest

/-- Python `needle in hay` on strings (substring test). -/
def strContains (needle hay : String) : Bool :=
  subOf needle.toList hay.toList

/-- Equality on `Except` results is decidable component-wise. -/
instance {e a : Type} [DecidableEq e] [DecidableEq a] : DecidableEq (Except e a) := fun x y =>
  match x, y with
  | .ok u, .ok v =>
    if h : u = v then isTrue (by rw [h]) else isFalse (by intro hc; cases hc; exact h rfl)
  | .error u, .error v =>
    if h : u = v then isTrue (by rw [h]) else isFalse (by intro hc; cases hc; exact h rfl)
  | .ok _, .error _ => isFalse (by intro hc; cases hc)
  | .error _, .ok _ => isFalse (by intro hc; cases hc)

/-- Error kinds, one per distinct raise site of the source
(`BluetoothError` / `BluetoothAuthenticationError` / `ValueError` / pexpect errors). -/
inductive BtError where
  | adapterNotFound
  | startDiscoveryFailed
  | unknownDevice (device : String)
  | deviceNotVisible (addr : String)
  | devConnectFailed (addr : String)
  | noRfcommService (addr : String)
  | rfcommConnectFailed (addr : String)
  | authenticationFailed (addr : String)
  | pairingFailed (addr : String)
  | socketClosed
  | noPayload
  | shellUnexpected
  deriving Repr, DecidableEq

/-- Source `BluetoothMessageRecord` (timestamps as abstract ticks). -/
structure MessageRecord where
  send_message : Option String := none
  send_bytes : Option Bytes := none
  send_at : Option Nat := none
  received_message : Option String := none
  received_bytes : Option Bytes := none
  received_at : Option Nat := none
  deriving Repr, DecidableEq

/-- Source `BluetoothConnectionInfo`. -/
structure ConnectionInfo where
  connection_id : String
  address : String
  name : Option String := none
  port : Option Nat := none
  created_at : Nat := 0
  last_used_at : Option Nat := none
  is_connected : Bool := true
  deriving Repr, DecidableEq

/-- Source `BluetoothConnectionInfo.touch`. -/
def ConnectionInfo.touch (i : ConnectionInfo) (now : Nat) : ConnectionInfo :=
  { i with last_used_at := some now }

/-- Source `BluetoothConnection` state: `sockOpen` models `self.sock` being non-None,
`last_sent` the `deque(maxlen=10)` of normalized transmitted payloads, `incoming`
the listener inbox, `stopEvent` the `threading.Event` stop flag. -/
structure Session where
  address : String
  port : Nat
  sockOpen : Bool
  last_sent : List Bytes
  incoming : List MessageRecord
  stopEvent : Bool
  info : ConnectionInfo
  deriving Repr, DecidableEq

/-- Python `deque(maxlen=10).append`: oldest entries are evicted from the left. -/
def dequeAppend10 (q : List Bytes) (x : Bytes) : List Bytes :=
  let q2 := q ++ [x]
  if 10 < q2.length then q2.drop (q2.length - 10) else q2

/-- Source `BluetoothConnection.__init__` with a freshly opened socket (`connection_id`
is computed by the caller, `connect`, as `name or addr`). -/
def Session.make (address : String) (port : Nat) (name : Option String) (cid : String)
    (now : Nat) : Session :=
  { address := address, port := port, sockOpen := true, last_sent := [], incoming := [],
    stopEvent := false,
    info := { connection_id := cid, address := address, name := name, port := some port,
              created_at := now, last_used_at := none, is_connected := true } }

/-- Source `BluetoothConnection._is_echo` (Python truthiness: empty bytes / empty
string guards). -/
def is_echo (sent received : MessageRecord) : Bool :=
  (pyTruthyBytes sent.send_bytes && pyTruthyBytes received.received_bytes &&
     normalize_bytes (sent.send_bytes.getD []) == normalize_bytes (received.received_bytes.getD []))
  ||
  (pyTruthyStr sent.send_message && pyTruthyStr received.received_message &&
     normalize_text (sent.send_message.getD "") == normalize_text (received.received_message.getD ""))

/-- Source `BluetoothConnection.send_msg`: encode, send, touch, and remember the
normalized payload for echo filtering. Returns the updated session and the mutated
record. -/
def send_msg (s : Session) (record : MessageRecord) (now : Nat) :
    Except BtError (Session × MessageRecord) :=
  if !s.sockOpen then .error .socketClosed
  else
    match record.send_message with
    | some msg =>
      let payload := utf8Encode msg
      let r1 := { record with send_bytes := some payload, send_at := some now }
      .ok ({ s with info := s.info.touch now,
                    last_sent := dequeAppend10 s.last_sent (normalize_bytes payload) }, r1)
    | none =>
      match record.send_bytes with
      | some payload =>
        let r1 := { record with send_at := some now }
        .ok ({ s with info := s.info.touch now,
                      last_sent := dequeAppend10 s.last_sent (normalize_bytes payload) }, r1)
      | none => .error .noPayload

/-- One iteration of the source `BluetoothConnection._listen_loop` in which the socket
read returned `data`; an empty `data` models a poll timeout (`if not data: continue`).
The read touches `info`, the echo check compares the normalized bytes against
`last_sent`, and a non-echo read is appended to the inbox. -/
def listen_step (s : Session) (data : Bytes) (now : Nat) : Session :=
  if data.isEmpty then s
  else
    let s1 := { s with info := s.info.touch now }
    let norm := normalize_bytes data
    if s1.last_sent.contains norm then s1
    else
      { s1 with incoming := s1.incoming ++
          [{ received_bytes := some data,
             received_message := some (utf8DecodeIgnore data),
             received_at := some now }] }

/-- Source `BluetoothConnection.receive_msg`: pop the oldest inbox entry, if any. -/
def receive_msg (s : Session) : Session × Option MessageRecord :=
  match s.incoming with
  | [] => (s, none)
  | r :: rest => ({ s with incoming := rest }, some r)

/-- Source `BluetoothConnection.send_receive_msg`. The wall-clock wait loop is
modelled by its observable input: `news` is the list of inbox entries past the
`start_index` watermark that the loop drained before the deadline, in arrival
order. The loop filters echoes of the just-sent record and merges what is left
into the record (text joined with a newline, bytes concatenated, timestamp of the
last fragment); if nothing was collected the received fields are defaulted with
Python `or` (empty string / empty bytes / unchanged timestamp). -/
def send_receive_msg (s : Session) (record : MessageRecord) (news : List MessageRecord)
    (now : Nat) : Except BtError (Session × MessageRecord) :=
  match send_msg s record now with
  | .error e => .error e
  | .ok (s1, r1) =>
    let collected := news.filter (fun c => !is_echo r1 c)
    if collected.isEmpty then
      .ok (s1, { r1 with received_message := some (r1.received_message.getD ""),
                         received_bytes := some (r1.received_bytes.getD []) })
    else
      let textParts := collected.filterMap (fun c => c.received_message)
      let byteParts := collected.filterMap (fun c => c.received_bytes)
      .ok (s1, { r1 with
        received_message := some (if textParts.isEmpty then r1.received_message.getD ""
                                  else String.intercalate "\n" textParts),
        received_bytes := some (if byteParts.isEmpty then r1.received_bytes.getD []
                                else byteParts.flatten),
        received_at := (collected.getLast?).bind (fun c => c.received_at) })

/-- Source `BluetoothConnection.disconnect`: set the stop flag, close the socket,
mark disconnected, touch. -/
def Session.disconnect (s : Session) (now : Nat) : Session :=
  { s with stopEvent := true, sockOpen := false,
           info := { s.info with is_connected := false, last_used_at := some now } }

/-- Properties of one `org.bluez.Device1` object (`None` props are absent keys). -/
structure DevProps where
  Address : Option String := none
  Name : Option String := none
  Alias : Option String := none
  Paired : Bool := false
  Trusted : Bool := false
  Connected : Bool := false
  Blocked : Bool := false
  RSSI : Option Int := none
  UUIDs : List String := []
  ManufacturerData : List (Nat × Bytes) := []
  deriving Repr, DecidableEq

/-- One `GetManagedObjects` snapshot: object path to (optional) `Device1` props. -/
abbrev ObjsSnapshot := List (String × Option DevProps)

/-- One PyBluez `find_service` record. -/
structure SvcRecord where
  protocol : Option String := none
  port : Option Nat := none
  deriving Repr, DecidableEq

/-- Source `BluetoothDeviceInfo`. -/
structure DeviceInfo where
  address : String
  name : Option String
  alias_ : Option String
  paired : Bool
  trusted : Bool
  connected : Bool
  blocked : Bool
  rssi : Option Int
  manufacturer_id : Option Nat
  manufacturer_spec_data : Bytes
  uuids : List String
  last_seen : Nat
  deriving Repr, DecidableEq

/-- The external world: D-Bus, PyBluez and socket oracles. `objs i` is the snapshot
returned by the i-th `GetManagedObjects` call; `devConnect addr` is `none` when
`Device1.Connect()` succeeds and `some msg` when it raises with message `msg`
(likewise `devPair`); `findService addr i` is the service list of the i-th retry. -/
structure World where
  adapterName : String := "hci0"
  adapterPresent : Bool := true
  startDiscoveryOk : Bool := true
  objs : Nat → ObjsSnapshot
  devConnect : String → Option String
  devPair : String → Option String
  lookupName : String → Option String
  findService : String → Nat → List SvcRecord
  sockConnect : String → Nat → Bool

/-- Source `BluetoothManager` state plus a session registry and ghost counters:
`cache` is `_devices_cache`, `connections` is `_connections` with sessions stored
by registry index (Python object references), `qidx` counts `GetManagedObjects`
calls (cursor into `World.objs`), `scans` counts completed scans. -/
structure MgrState where
  cache : List (String × String) := []
  sessions : List Session := []
  connections : List (String × Nat) := []
  qidx : Nat := 0
  scans : Nat := 0
  deriving Repr, DecidableEq

/-- Python dict assignment on an association list (overwrite the key, else append). -/
def upsert {β : Type} (m : List (String × β)) (k : String) (v : β) : List (String × β) :=
  if m.any (fun p => p.1 == k) then
    m.map (fun p => if p.1 == k then (k, v) else p)
  else m ++ [(k, v)]

/-- Python `del d[k]` on an association list. -/
def removeKey {β : Type} (m : List (String × β)) (k : String) : List (String × β) :=
  m.filter (fun p => !(p.1 == k))

/-- In-place mutation of the i-th registry entry (a no-op past the end). -/
def updateAt {α : Type} (l : List α) (i : Nat) (f : α → α) : List α :=
  match l, i with
  | [], _ => []
  | a :: rest, 0 => f a :: rest
  | a :: rest, n + 1 => a :: updateAt rest n f

/-- Source `BluetoothManager._adapter_path`. -/
def adapterPath (w : World) : String := "/org/bluez/" ++ w.adapterName

/-- Source `BluetoothManager._find_device_entries` over one snapshot: keep `Device1`
objects under this adapter with a truthy `Address`, keyed by the uppercased address
(Python dict semantics: a duplicate address overwrites). -/
def findDeviceEntries (w : World) (objs : ObjsSnapshot) :
    List (String × (String × DevProps)) :=
  objs.foldl
    (fun acc pe =>
      match pe.2 with
      | none => acc
      | some props =>
        if !(pyStartsWith pe.1 (adapterPath w ++ "/dev_")) then acc
        else
          match props.Address with
          | none => acc
          | some a => if a == "" then acc else upsert acc (pyUpper a) (pe.1, props))
    []

/-- Predicate of the Name pass of `_resolve_name_in_bluez`
(`if name and name.lower() == device_name_lower`). -/
def nameMatches (lower : String) (props : DevProps) : Bool :=
  match props.Name with
  | some n => !(n == "") && pyLower n == lower
  | none => false

/-- Predicate of the Alias pass of `_resolve_name_in_bluez`. -/
def aliasMatches (lower : String) (props : DevProps) : Bool :=
  match props.Alias with
  | some n => !(n == "") && pyLower n == lower
  | none => false

/-- Source `BluetoothManager._resolve_name_in_bluez`: take a fresh snapshot, search
case-insensitively first by `Name` then by `Alias`; a hit refreshes the hint cache
under the device's own (original-case) name or alias. -/
def resolveNameInBluez (w : World) (st : MgrState) (deviceName : String) :
    Option String × MgrState :=
  let entries := findDeviceEntries w (w.objs st.qidx)
  let st1 := { st with qidx := st.qidx + 1 }
  let lower := pyLower deviceName
  match entries.find? (fun e => nameMatches lower e.2.2) with
  | some e => (some e.1, { st1 with cache := upsert st1.cache (e.2.2.Name.getD "") e.1 })
  | none =>
    match entries.find? (fun e => aliasMatches lower e.2.2) with
    | some e => (some e.1, { st1 with cache := upsert st1.cache (e.2.2.Alias.getD "") e.1 })
    | none => (none, st1)

/-- `BluetoothDeviceInfo` construction shared by `scan` and `get_device_info`
(`manufacturer_id`/`manufacturer_spec_data` come from the first `ManufacturerData`
entry, if any). -/
def mkDeviceInfo (addr : String) (props : DevProps) (now : Nat) : DeviceInfo :=
  { address := props.Address.getD addr,
    name := props.Name,
    alias_ := props.Alias,
    paired := props.Paired, trusted := props.Trusted, connected := props.Connected,
    blocked := props.Blocked, rssi := props.RSSI,
    manufacturer_id := (props.ManufacturerData.head?).map (fun p => p.1),
    manufacturer_spec_data := ((props.ManufacturerData.head?).map (fun p => p.2)).getD [],
    uuids := props.UUIDs, last_seen := now }

/-- Source `BluetoothManager.scan`: start discovery (failures are fatal), sleep (not
modelled), stop discovery (failure swallowed), snapshot, rebuild the hint cache from
scratch for every truthy `Name` and `Alias`, and return the device infos. -/
def scan (w : World) (st : MgrState) (now : Nat) :
    Except BtError (List DeviceInfo) × MgrState :=
  if !w.adapterPresent then (.error .adapterNotFound, st)
  else if !w.startDiscoveryOk then (.error .startDiscoveryFailed, st)
  else
    let entries := findDeviceEntries w (w.objs st.qidx)
    let st1 := { st with qidx := st.qidx + 1, scans := st.scans + 1 }
    let devices := entries.map (fun e => mkDeviceInfo e.1 e.2.2 now)
    let cache2 := entries.foldl
      (fun c e =>
        let c1 := match e.2.2.Name with
          | some n => if n == "" then c else upsert c n e.1
          | none => c
        match e.2.2.Alias with
        | some a => if a == "" then c1 else upsert c1 a e.1
        | none => c1)
      ([] : List (String × String))
    (.ok devices, { st1 with cache := cache2 })

/-- The part of `_resolve_device_to_addr` after the hint-cache test failed: BlueZ
search, then one scan, then one more BlueZ search, then `BluetoothError`. -/
def resolveAfterCacheMiss (w : World) (st : MgrState) (d : String) (now : Nat) :
    Except BtError String × MgrState :=
  match resolveNameInBluez w st d with
  | (some addr, st1) => (.ok addr, st1)
  | (none, st1) =>
    match scan w st1 now with
    | (.error e, st2) => (.error e, st2)
    | (.ok _, st2) =>
      match resolveNameInBluez w st2 d with
      | (some addr, st3) => (.ok addr, st3)
      | (none, st3) => (.error (.unknownDevice d), st3)

/-- Source `BluetoothManager._resolve_device_to_addr`: strip; a string containing
the address separator is uppercased and returned directly; otherwise try the hint
cache (Python truthiness) and fall through to the snapshot/scan procedure. -/
def resolveDeviceToAddr (w : World) (st : MgrState) (device : String) (now : Nat) :
    Except BtError String × MgrState :=
  let d := pyStrip device
  if pyContainsChar d ':' then (.ok (pyUpper d), st)
  else
    match st.cache.lookup d with
    | some cached =>
      if cached == "" then resolveAfterCacheMiss w st d now else (.ok cached, st)
    | none => resolveAfterCacheMiss w st d now

/-- Source `BluetoothManager._get_device_path_and_props`: uppercase, fresh snapshot,
fail when the address is not among the managed objects. The state (one consumed
snapshot) is the same on both outcomes. -/
def getDevicePathAndProps (w : World) (st : MgrState) (addr : String) :
    Except BtError (String × DevProps) × MgrState :=
  let a := pyUpper addr
  let entries := findDeviceEntries w (w.objs st.qidx)
  ((match entries.lookup a with
    | some pp => .ok pp
    | none => .error (.deviceNotVisible a)),
   { st with qidx := st.qidx + 1 })

/-- Source `BluetoothManager.get_device_info`: resolve, then build a `DeviceInfo`
from the current snapshot. -/
def getDeviceInfo (w : World) (st : MgrState) (device : String) (now : Nat) :
    Except BtError DeviceInfo × MgrState :=
  match resolveDeviceToAddr w st device now with
  | (.error e, st1) => (.error e, st1)
  | (.ok addr, st1) =>
    match getDevicePathAndProps w st1 addr with
    | (.error e, st2) => (.error e, st2)
    | (.ok pp, st2) => (.ok (mkDeviceInfo addr pp.2 now), st2)

/-- Source `BluetoothManager.is_paired`: `bool(get_device_info(device).paired)`,
with no exception handling of its own. -/
def isPaired (w : World) (st : MgrState) (device : String) (now : Nat) :
    Except BtError Bool × MgrState :=
  match getDeviceInfo w st device now with
  | (.error e, st1) => (.error e, st1)
  | (.ok info, st1) => (.ok info.paired, st1)

/-- Source `BluetoothManager.is_connected`: `bool(get_device_info(device).connected)`,
with no exception handling of its own. -/
def isConnected (w : World) (st : MgrState) (device : String) (now : Nat) :
    Except BtError Bool × MgrState :=
  match getDeviceInfo w st device now with
  | (.error e, st1) => (.error e, st1)
  | (.ok info, st1) => (.ok info.connected, st1)

/-- The inner `try` of the link-level connect block of `BluetoothManager.connect`:
proxy lookup plus `Device1.Connect()`, where the two profile-unavailable message
signatures are swallowed and any other `Connect()` failure raises `BluetoothError`.
The state (one consumed snapshot) is the same on every outcome. -/
def connectLinkInner (w : World) (st : MgrState) (addr : String) :
    Except BtError Unit × MgrState :=
  ((match (getDevicePathAndProps w st addr).1 with
    | .error e => .error e
    | .ok _ =>
      match w.devConnect addr with
      | none => .ok ()
      | some msg =>
        if (strContains "org.bluez.Error.NotAvailable" msg
            || strContains "br-connection-profile-unavailable" msg) then
          .ok ()
        else .error (.devConnectFailed addr)),
   (getDevicePathAndProps w st addr).2)

/-- First RFCOMM port of one `find_service` result (the inner `for` of `connect`:
the first record whose protocol is RFCOMM contributes its `port`, which may itself
be absent). -/
def firstRfcommPort (services : List SvcRecord) : Option Nat :=
  match services.find? (fun svc => svc.protocol == some "RFCOMM") with
  | some svc => svc.port
  | none => none

/-- The `for _ in range(3)` retry loop around `find_service` in `connect`. -/
def rfcommLookup (f : Nat → List SvcRecord) : Option Nat :=
  match firstRfcommPort (f 0) with
  | some p => some p
  | none =>
    match firstRfcommPort (f 1) with
    | some p => some p
    | none => firstRfcommPort (f 2)

/-- Source `BluetoothManager.connect`: resolve; link-level connect wrapped in
`except BluetoothError: pass` (only the state survives); PyBluez name lookup;
RFCOMM channel discovery with 3 retries; socket connect; construct and register
the session (its registry index is returned). -/
def connect (w : World) (st : MgrState) (device : String) (now : Nat) :
    Except BtError Nat × MgrState :=
  match resolveDeviceToAddr w st device now with
  | (.error e, st1) => (.error e, st1)
  | (.ok addr, st1) =>
    let st2 := (connectLinkInner w st1 addr).2
    let name := w.lookupName addr
    match rfcommLookup (w.findService addr) with
    | none => (.error (.noRfcommService addr), st2)
    | some port =>
      if w.sockConnect addr port then
        let cid := pyOrStr name addr
        let sess := Session.make addr port name cid now
        (.ok st2.sessions.length,
         { st2 with sessions := st2.sessions ++ [sess],
                    connections := upsert st2.connections addr st2.sessions.length })
      else (.error (.rfcommConnectFailed addr), st2)

/-- Source `BluetoothManager.disconnect`: resolve; tear down and deregister the
local session, if any; then a best-effort link-level disconnect whose proxy lookup
consumes one snapshot and whose failures are all swallowed. -/
def disconnectDevice (w : World) (st : MgrState) (device : String) (now : Nat) :
    Except BtError Unit × MgrState :=
  match resolveDeviceToAddr w st device now with
  | (.error e, st1) => (.error e, st1)
  | (.ok addr, st1) =>
    let st2 :=
      match st1.connections.lookup addr with
      | some sid =>
        { st1 with sessions := updateAt st1.sessions sid (fun c => c.disconnect now),
                   connections := removeKey st1.connections addr }
      | none => st1
    (.ok (), (getDevicePathAndProps w st2 addr).2)

/-- Source `BluetoothManager.active_connections`: the info of every registered
session. -/
def activeConnections (st : MgrState) : List ConnectionInfo :=
  st.connections.filterMap (fun p => (st.sessions.get? p.2).map (fun c => c.info))

/-- Source `BluetoothManager.disconnect_all`: disconnect every registered session,
then clear the table. -/
def disconnectAll (st : MgrState) (now : Nat) : MgrState :=
  let st2 := st.connections.foldl
    (fun acc p => { acc with sessions := updateAt acc.sessions p.2 (fun c => c.disconnect now) })
    st
  { st2 with connections := [] }

/-- The output events of the scripted `bluetoothctl` shell that the pairing code
pattern-matches on (one constructor per `expect` pattern of the source; `eof` and
`timeout` stand for `pexpect.EOF` / `pexpect.TIMEOUT`). -/
inductive CtlEvent where
  | prompt
  | enterPin
  | failedToPair
  | authFailed
  | pairingSuccessful
  | alreadyExists
  | eof
  | timeout
  deriving Repr, DecidableEq

/-- Index of the first occurrence of `a`, if any. -/
def idxOf? {α : Type} [DecidableEq α] (a : α) : List α → Option Nat
  | [] => none
  | b :: rest => if b = a then some 0 else (idxOf? a rest).map (fun i => i + 1)

/-- Model of one `pexpect.expect(patterns)` call over the scripted shell output:
skip events matching no pattern until one matches, returning its pattern index and
the remaining output. Exhausted output is a pexpect TIMEOUT, which matches only
when `timeout` is among the patterns; an `eof` event matches only the `eof`
pattern; an unmatched exception aborts the exchange (`none`). -/
def expectScan (pats : List CtlEvent) : List CtlEvent → Option (Nat × List CtlEvent)
  | [] => (idxOf? CtlEvent.timeout pats).map (fun i => (i, []))
  | e :: rest =>
    match idxOf? e pats with
    | some i => some (i, rest)
    | none => if e = CtlEvent.eof then none else expectScan pats rest

/-- The pattern list of the `child.expect` right after `pair <addr>` (source indices
0 to 6). -/
def pairPatterns : List CtlEvent :=
  [.enterPin, .failedToPair, .authFailed, .pairingSuccessful, .alreadyExists, .eof, .timeout]

/-- The pattern list of the `child.expect` right after the PIN was sent (source
indices 0 to 5). -/
def pinPatterns : List CtlEvent :=
  [.pairingSuccessful, .failedToPair, .authFailed, .alreadyExists, .eof, .timeout]

/-- Source `BluetoothManager._pair_with_pin_via_bluetoothctl`, driven by the
scripted shell output `stream`. Returns the outcome and the list of lines written
to the shell in order; the `finally` block always appends the closing `quit`. -/
def pairWithPinViaBluetoothctl (addr pin : String) (stream : List CtlEvent) :
    Except BtError Unit × List String :=
  let fin := fun (r : Except BtError Unit) (sent : List String) => (r, sent ++ ["quit"])
  match expectScan [CtlEvent.prompt] stream with
  | none => fin (.error .shellUnexpected) []
  | some (_, s1) =>
    match expectScan [CtlEvent.prompt] s1 with
    | none => fin (.error .shellUnexpected) ["agent KeyboardOnly"]
    | some (_, s2) =>
      match expectScan [CtlEvent.prompt] s2 with
      | none => fin (.error .shellUnexpected) ["agent KeyboardOnly", "default-agent"]
      | some (_, s3) =>
        let sent0 := ["agent KeyboardOnly", "default-agent", "pair " ++ addr]
        match expectScan pairPatterns s3 with
        | none => fin (.error .shellUnexpected) sent0
        | some (idx, s4) =>
          if idx == 0 then
            let sent1 := sent0 ++ [pin]
            match expectScan pinPatterns s4 with
            | none => fin (.error .shellUnexpected) sent1
            | some (idx2, _) =>
              if idx2 == 0 || idx2 == 3 then fin (.ok ()) sent1
              else if idx2 == 1 || idx2 == 2 then
                fin (.error (.authenticationFailed addr)) sent1
              else fin (.error (.pairingFailed addr)) sent1
          else if idx == 3 || idx == 4 then fin (.ok ()) sent0
          else if idx == 1 || idx == 2 then fin (.error (.authenticationFailed addr)) sent0
          else fin (.error (.pairingFailed addr)) sent0

/-- Source `BluetoothManager.pair`. Besides the outcome and the state, the result
carries the lines written to the pairing shell and whether a Trust operation was
actually issued on D-Bus. On the PIN path (`if pin:`, Python truthiness) the name
`dev` is never bound, so the `if trust:` block raises `NameError` when it reads
`dev`; the block's bare `except Exception: pass` swallows it, the device's
`Trusted` property is never written, and `pair` still returns success. -/
def pairDevice (w : World) (st : MgrState) (device : String) (pin : Option String)
    (trust : Bool) (stream : List CtlEvent) (now : Nat) :
    Except BtError Unit × MgrState × List String × Bool :=
  match resolveDeviceToAddr w st device now with
  | (.error e, st1) => (.error e, st1, [], false)
  | (.ok addr, st1) =>
    if pyTruthyStr pin then
      match pairWithPinViaBluetoothctl addr (pin.getD "") stream with
      | (.error e, sent) => (.error e, st1, sent, false)
      | (.ok _, sent) => (.ok (), st1, sent, false)
    else
      match
        (match getDevicePathAndProps w st1 addr with
         | (.ok _, st2) => (Except.ok (), st2)
         | (.error _, st2) =>
           match scan w st2 now with
           | (.error e, st3) => (Except.error e, st3)
           | (.ok _, st3) =>
             match getDevicePathAndProps w st3 addr with
             | (.ok _, st4) => (Except.ok (), st4)
             | (.error e, st4) => (Except.error e, st4))
      with
      | (.error e, st2) => (.error e, st2, [], false)
      | (.ok _, st2) =>
        match getDevicePathAndProps w st2 addr with
        | (.error e, st3) => (.error e, st3, [], false)
        | (.ok _, st3) =>
          match w.devPair addr with
          | some msg =>
            if strContains "org.bluez.Error.AuthenticationFailed" msg then
              (.error (.authenticationFailed addr), st3, [], false)
            else (.error (.pairingFailed addr), st3, [], false)
          | none =>
            if trust then (.ok (), st3, [], true) else (.ok (), st3, [], false)

/-- Source `BluetoothManager.unpair`: resolve, locate the device path, then
`Adapter1.RemoveDevice` (modelled as always succeeding once the path is known). -/
def unpair (w : World) (st : MgrState) (device : String) (now : Nat) :
    Except BtError Unit × MgrState :=
  match resolveDeviceToAddr w st device now with
  | (.error e, st1) => (.error e, st1)
  | (.ok addr, st1) =>
    match getDevicePathAndProps w st1 addr with
    | (.error e, st2) => (.error e, st2)
    | (.ok _, st2) =>
      if w.adapterPresent then (.ok (), st2) else (.error .adapterNotFound, st2)

/-! Concrete fixtures used by witnesses and counterexamples. -/

/-- Fresh manager state. -/
def stEmpty : MgrState := {}

/-- Properties of an HC-06 style serial module as BlueZ reports them. -/
def hcProps : DevProps :=
  { Address := some "AA:BB:CC:DD:EE:FF", Name := some "HC-06", Alias := some "HC-06",
    Paired := true, Connected := false }

/-- A snapshot containing only the HC-06 module. -/
def hcObjs : ObjsSnapshot := [("/org/bluez/hci0/dev_AA_BB_CC_DD_EE_FF", some hcProps)]

/-- A world where the HC-06 module is visible, its link-level `Connect()` raises a
failure that is not a profile-unavailable signature, and RFCOMM discovery and the
socket connect succeed. -/
def hcWorld : World :=
  { objs := fun _ => hcObjs,
    devConnect := fun _ => some "org.bluez.Error.Failed: Connection refused",
    devPair := fun _ => none,
    lookupName := fun _ => some "HC-06",
    findService := fun _ _ => [{ protocol := some "RFCOMM", port := some 1 }],
    sockConnect := fun _ _ => true }

/-- A world where no device is visible and every external operation fails. -/
def emptyWorld : World :=
  { objs := fun _ => [], devConnect := fun _ => none, devPair := fun _ => none,
    lookupName := fun _ => none, findService := fun _ _ => [], sockConnect := fun _ _ => false }

/-- A freshly opened session to the HC-06 module. -/
def sessA : Session := Session.make "AA:BB:CC:DD:EE:FF" 1 (some "HC-06") "HC-06" 0

/-- An outbound record carrying the text `AT`. -/
def recAT : MessageRecord := { send_message := some "AT" }

/-- The session and record produced by `send_msg sessA recAT 1`
(the UTF-8 bytes of `AT` are `[65, 84]`). -/
def afterSendAT : Session × MessageRecord :=
  ({ sessA with info := sessA.info.touch 1, last_sent := [[65, 84]] },
   { recAT with send_bytes := some [65, 84], send_at := some 1 })

/-- The inbox record the listener builds from the raw reply bytes of `OK\r\n`. -/
def fragOK : MessageRecord :=
  { received_bytes := some [79, 75, 13, 10], received_message := some "OK\r\n",
    received_at := some 2 }

/-! Helper lemmas. -/

/-- The element just appended to the bounded deque is among its entries. -/
theorem mem_dequeAppend10 (q : List Bytes) (x : Bytes) : x ∈ dequeAppend10 q x := by
  simp only [dequeAppend10]
  split
  · rename_i h
    rw [List.drop_append_of_le_length (by simp only [List.length_append, List.length_singleton]; omega)]
    simp
  · simp

/-- `contains` form of `mem_dequeAppend10`. -/
theorem contains_dequeAppend10 (q : List Bytes) (x : Bytes) :
    (dequeAppend10 q x).contains x = true :=
  List.elem_eq_true_of_mem (mem_dequeAppend10 q x)

/-- A successful `send_msg` leaves the received fields of the record untouched. -/
theorem send_msg_received_fields (s : Session) (record : MessageRecord) (now : Nat)
    (s1 : Session) (r1 : MessageRecord) (h : send_msg s record now = .ok (s1, r1)) :
    r1.received_message = record.received_message ∧
    r1.received_bytes = record.received_bytes ∧
    r1.received_at = record.received_at := by
  unfold send_msg at h
  split at h
  · exact Except.noConfusion h
  · split at h
    · simp only [Except.ok.injEq, Prod.mk.injEq] at h
      rw [← h.2]
      exact ⟨rfl, rfl, rfl⟩
    · split at h
      · simp only [Except.ok.injEq, Prod.mk.injEq] at h
        rw [← h.2]
        exact ⟨rfl, rfl, rfl⟩
      · exact Except.noConfusion h

/-- A successful `send_msg` puts the normalized payload into `last_sent`. -/
theorem send_msg_last_sent (s : Session) (record : MessageRecord) (now : Nat)
    (s1 : Session) (r1 : MessageRecord) (p : Bytes)
    (h : send_msg s record now = .ok (s1, r1)) (hp : r1.send_bytes = some p) :
    s1.last_sent = dequeAppend10 s.last_sent (normalize_bytes p) := by
  unfold send_msg at h
  split at h
  · exact Except.noConfusion h
  · split at h
    · rename_i msg hm
      simp only [Except.ok.injEq, Prod.mk.injEq] at h
      rw [← h.2] at hp
      have hp2 : utf8Encode msg = p := by simpa using hp
      rw [← h.1, ← hp2]
    · split at h
      · rename_i payload hb
        simp only [Except.ok.injEq, Prod.mk.injEq] at h
        rw [← h.2] at hp
        have hp2 : record.send_bytes = some p := by simpa using hp
        rw [hb] at hp2
        have hp3 : payload = p := Option.some_inj.mp hp2
        rw [← h.1, ← hp3]
      · exact Except.noConfusion h

/-- `filterMap` of a nonempty list is nonempty when `f` is defined on every element. -/
theorem filterMap_ne_nil_of_all_isSome {α β : Type} {l : List α} {f : α → Option β}
    (hl : l ≠ []) (h : ∀ c ∈ l, (f c).isSome) : l.filterMap f ≠ [] := by
  cases l with
  | nil => exact absurd rfl hl
  | cons a t =>
    have ha := h a (by simp)
    rcases Option.isSome_iff_exists.mp ha with ⟨b, hb⟩
    simp [List.filterMap_cons, hb]

/-- A nonempty list has a last element, and it is a member. -/
theorem getLast?_mem_of_ne_nil {α : Type} {l : List α} (h : l ≠ []) :
    ∃ a, l.getLast? = some a ∧ a ∈ l :=
  ⟨l.getLast h, List.getLast?_eq_getLast_of_ne_nil h, List.getLast_mem h⟩

/-! Claim theorems. -/

/-- C4: Echo suppression. Whenever the normalized form of the bytes the listener
reads is among the recorded recently-transmitted payloads, the listener discards
the read: nothing is appended to the inbox, so `receive_msg` returns nothing when
the inbox was empty. Moreover a successful `send_msg` of a payload `p` does record
`p`'s normalized form, so a reflection of `p` that differs only in trailing CR/LF
is discarded. -/
theorem C4_echo_suppression :
    (∀ (s : Session) (data : Bytes) (now : Nat),
       s.last_sent.contains (normalize_bytes data) = true →
       (listen_step s data now).incoming = s.incoming ∧
       (s.incoming = [] → (receive_msg (listen_step s data now)).2 = none)) ∧
    (∀ (s : Session) (record : MessageRecord) (now : Nat) (s1 : Session)
       (r1 : MessageRecord) (p : Bytes),
       send_msg s record now = .ok (s1, r1) → r1.send_bytes = some p →
       s1.last_sent.contains (normalize_bytes p) = true) := by
  constructor
  · intro s data now h
    have hm : normalize_bytes data ∈ s.last_sent := by simpa using h
    constructor
    · by_cases hd : data.isEmpty
      · simp [listen_step, hd]
      · simp [listen_step, hd, hm]
    · intro hi
      by_cases hd : data.isEmpty
      · simp [listen_step, receive_msg, hd, hi]
      · simp [listen_step, receive_msg, hd, hm, hi]
  · intro s record now s1 r1 p hsend hp
    rw [send_msg_last_sent s record now s1 r1 p hsend hp]
    exact contains_dequeAppend10 _ _

/-- C4 witness: after sending `AT`, the reflected bytes of `AT\r\n` are discarded
by the listener and `receive_msg` yields nothing. -/
theorem C4_echo_suppression_witness :
    (listen_step afterSendAT.1 [65, 84, 13, 10] 2).incoming = afterSendAT.1.incoming ∧
    (receive_msg (listen_step afterSendAT.1 [65, 84, 13, 10] 2)).2 = none := by
  have h1 := C4_echo_suppression.1 afterSendAT.1 [65, 84, 13, 10] 2 (by decide)
  exact ⟨h1.1, h1.2 (by decide)⟩

/-- C2 (amended): when at least one non-echo fragment is drained within the
correlation window, `send_receive_msg` merges the fragments into the record:
`received_message` is the fragments' decoded texts joined with a newline with no
CR/LF stripping, `received_bytes` is the fragments' bytes concatenated in arrival
order, and `received_at` is the last fragment's (non-null) timestamp. -/
theorem C2_send_and_receive_merge (s : Session) (record : MessageRecord)
    (news : List MessageRecord) (now : Nat) (s1 : Session) (r1 : MessageRecord)
    (hsend : send_msg s record now = .ok (s1, r1))
    (hfrag : ∀ c ∈ news, c.received_message.isSome ∧ c.received_bytes.isSome ∧
       c.received_at.isSome)
    (hne : news.filter (fun c => !is_echo r1 c) ≠ []) :
    send_receive_msg s record news now = .ok (s1, { r1 with
      received_message := some (String.intercalate "\n"
        ((news.filter (fun c => !is_echo r1 c)).filterMap (fun c => c.received_message))),
      received_bytes := some
        (((news.filter (fun c => !is_echo r1 c)).filterMap (fun c => c.received_bytes)).flatten),
      received_at :=
        ((news.filter (fun c => !is_echo r1 c)).getLast?).bind (fun c => c.received_at) }) ∧
    (((news.filter (fun c => !is_echo r1 c)).getLast?).bind
        (fun c => c.received_at)).isSome := by
  have hmem : ∀ c ∈ news.filter (fun c => !is_echo r1 c), c ∈ news := by
    intro c hc
    exact List.mem_of_mem_filter hc
  have hce : (news.filter (fun c => !is_echo r1 c)).isEmpty = false := by
    cases hcl : news.filter (fun c => !is_echo r1 c) with
    | nil => exact absurd hcl hne
    | cons a t => rfl
  have htext :
      (news.filter (fun c => !is_echo r1 c)).filterMap (fun c => c.received_message) ≠ [] :=
    filterMap_ne_nil_of_all_isSome hne (fun c hc => (hfrag c (hmem c hc)).1)
  have hbytes :
      (news.filter (fun c => !is_echo r1 c)).filterMap (fun c => c.received_bytes) ≠ [] :=
    filterMap_ne_nil_of_all_isSome hne (fun c hc => (hfrag c (hmem c hc)).2.1)
  have hte :
      ((news.filter (fun c => !is_echo r1 c)).filterMap
        (fun c => c.received_message)).isEmpty = false := by
    cases hcl : (news.filter (fun c => !is_echo r1 c)).filterMap (fun c => c.received_message) with
    | nil => exact absurd hcl htext
    | cons a t => rfl
  have hbe :
      ((news.filter (fun c => !is_echo r1 c)).filterMap
        (fun c => c.received_bytes)).isEmpty = false := by
    cases hcl : (news.filter (fun c => !is_echo r1 c)).filterMap (fun c => c.received_bytes) with
    | nil => exact absurd hcl hbytes
    | cons a t => rfl
  obtain ⟨last, hlast, hlastmem⟩ := getLast?_mem_of_ne_nil hne
  constructor
  · unfold send_receive_msg
    rw [hsend]
    simp only [hce, hte, hbe, Bool.false_eq_true, if_false]
  · rw [hlast]
    simpa using (hfrag last (hmem last hlastmem)).2.2

/-- C2 witness: a single non-echo reply fragment built from the raw bytes of
`OK\r\n` is merged as stated. -/
theorem C2_send_and_receive_merge_witness :
    send_receive_msg sessA recAT [fragOK] 1 = .ok (afterSendAT.1, { afterSendAT.2 with
      received_message := some (String.intercalate "\n"
        (([fragOK].filter (fun c => !is_echo afterSendAT.2 c)).filterMap
          (fun c => c.received_message))),
      received_bytes := some
        ((([fragOK].filter (fun c => !is_echo afterSendAT.2 c)).filterMap
          (fun c => c.received_bytes)).flatten),
      received_at := (([fragOK].filter (fun c => !is_echo afterSendAT.2 c)).getLast?).bind
        (fun c => c.received_at) }) ∧
    ((([fragOK].filter (fun c => !is_echo afterSendAT.2 c)).getLast?).bind
        (fun c => c.received_at)).isSome :=
  C2_send_and_receive_merge sessA recAT [fragOK] 1 afterSendAT.1 afterSendAT.2
    (by decide) (by decide) (by decide)

/-- C2 counterexample: the listener keeps the raw decoded text, and the merge does
not strip CR/LF, so a single reply of bytes `OK\r\n` yields
`received_text = "OK\r\n"`, not `"OK"` as claimed. -/
theorem C2_counterexample :
    (listen_step afterSendAT.1 [79, 75, 13, 10] 2).incoming = [fragOK] ∧
    send_receive_msg sessA recAT [fragOK] 1 = .ok (afterSendAT.1,
      { afterSendAT.2 with
        received_message := some "OK\r\n",
        received_bytes := some [79, 75, 13, 10], received_at := some 2 }) ∧
    some "OK\r\n" ≠ some "OK" :=
  ⟨by decide, by decide, by decide⟩

/-- C7: when no new non-echo inbox entry is drained before the deadline and the
record carried no received fields, `send_receive_msg` returns the record with
`received_message` the empty string, `received_bytes` empty bytes (both present),
and a null `received_at`. -/
theorem C7_timeout_leaves_fields_empty (s : Session) (record : MessageRecord)
    (news : List MessageRecord) (now : Nat) (s1 : Session) (r1 : MessageRecord)
    (hsend : send_msg s record now = .ok (s1, r1))
    (hrm : record.received_message = none) (hrb : record.received_bytes = none)
    (hra : record.received_at = none)
    (hnone : news.filter (fun c => !is_echo r1 c) = []) :
    ∃ r2, send_receive_msg s record news now = .ok (s1, r2) ∧
      r2.received_message = some "" ∧ r2.received_bytes = some [] ∧
      r2.received_at = none := by
  obtain ⟨h1, h2, h3⟩ := send_msg_received_fields s record now s1 r1 hsend
  refine ⟨{ r1 with
            received_message := some (r1.received_message.getD ""),
            received_bytes := some (r1.received_bytes.getD []) }, ?_, ?_, ?_, ?_⟩
  · unfold send_receive_msg
    rw [hsend]
    have hce : (news.filter (fun c => !is_echo r1 c)).isEmpty = true := by
      rw [hnone]
      rfl
    simp only [hce, if_true]
  · simp [h1, hrm]
  · simp [h2, hrb]
  · simp [h3, hra]

/-- C7 witness: no reply at all after sending `AT` leaves the received fields
present but empty and the timestamp null. -/
theorem C7_timeout_witness :
    ∃ r2, send_receive_msg sessA recAT [] 1 = .ok (afterSendAT.1, r2) ∧
      r2.received_message = some "" ∧ r2.received_bytes = some [] ∧
      r2.received_at = none :=
  C7_timeout_leaves_fields_empty sessA recAT [] 1 afterSendAT.1 afterSendAT.2
    (by decide) (by decide) (by decide) (by decide) (by decide)

/-- Shell events an `expect` call skips: they match none of its patterns and are
not the terminal EOF. -/
def noiseFor (pats : List CtlEvent) (l : List CtlEvent) : Prop :=
  ∀ e ∈ l, e ∉ pats ∧ e ≠ CtlEvent.eof

/-- `idxOf?` misses exactly the non-members. -/
theorem idxOf?_eq_none_of_not_mem {α : Type} [DecidableEq α] {a : α} {l : List α}
    (h : a ∉ l) : idxOf? a l = none := by
  induction l with
  | nil => rfl
  | cons b t ih =>
    have hb : ¬b = a := fun hba => h (hba ▸ List.mem_cons_self b t)
    simp [idxOf?, hb, ih (fun hm => h (List.mem_cons_of_mem b hm))]

/-- An `expect` call scans over noise until the first matching event. -/
theorem expectScan_skip (pats : List CtlEvent) (l : List CtlEvent) (e : CtlEvent)
    (rest : List CtlEvent) (hnoise : noiseFor pats l) (i : Nat)
    (hi : idxOf? e pats = some i) :
    expectScan pats (l ++ e :: rest) = some (i, rest) := by
  induction l with
  | nil => simp [expectScan, hi]
  | cons a t ih =>
    obtain ⟨hnp, hne⟩ := hnoise a (List.mem_cons_self a t)
    have hna : idxOf? a pats = none := idxOf?_eq_none_of_not_mem hnp
    simp only [List.cons_append, expectScan, hna, hne, if_false]
    exact ih (fun x hx => hnoise x (List.mem_cons_of_mem a hx))

/-- C6: a transcript that emits `Enter PIN code:` after the pair command (possibly
among unmatched noise lines) and then `Pairing successful` or `AlreadyExists` after
the PIN was written drives `_pair_with_pin_via_bluetoothctl` to terminal success,
and the lines written to the shell are exactly the agent setup, the pair command,
one single PIN line, and the closing `quit`. -/
theorem C6_pin_pairing_success (addr pin : String)
    (n1 n2 n3 n4 n5 rest : List CtlEvent) (ev : CtlEvent)
    (h1 : noiseFor [CtlEvent.prompt] n1) (h2 : noiseFor [CtlEvent.prompt] n2)
    (h3 : noiseFor [CtlEvent.prompt] n3) (h4 : noiseFor pairPatterns n4)
    (h5 : noiseFor pinPatterns n5)
    (hev : ev = CtlEvent.pairingSuccessful ∨ ev = CtlEvent.alreadyExists) :
    pairWithPinViaBluetoothctl addr pin
      (n1 ++ CtlEvent.prompt :: (n2 ++ CtlEvent.prompt :: (n3 ++ CtlEvent.prompt ::
        (n4 ++ CtlEvent.enterPin :: (n5 ++ ev :: rest))))) =
      (.ok (), ["agent KeyboardOnly", "default-agent", "pair " ++ addr, pin, "quit"]) := by
  unfold pairWithPinViaBluetoothctl
  rw [expectScan_skip [CtlEvent.prompt] n1 CtlEvent.prompt _ h1 0 (by decide)]
  dsimp only
  rw [expectScan_skip [CtlEvent.prompt] n2 CtlEvent.prompt _ h2 0 (by decide)]
  dsimp only
  rw [expectScan_skip [CtlEvent.prompt] n3 CtlEvent.prompt _ h3 0 (by decide)]
  dsimp only
  rw [expectScan_skip pairPatterns n4 CtlEvent.enterPin _ h4 0 (by decide)]
  dsimp only
  cases hev with
  | inl h =>
    subst h
    rw [expectScan_skip pinPatterns n5 CtlEvent.pairingSuccessful rest h5 0 (by decide)]
    simp
  | inr h =>
    subst h
    rw [expectScan_skip pinPatterns n5 CtlEvent.alreadyExists rest h5 3 (by decide)]
    simp

/-- C6 witness: the minimal successful transcript. -/
theorem C6_pin_pairing_success_witness :
    pairWithPinViaBluetoothctl "AA:BB:CC:DD:EE:FF" "1234"
      ([] ++ CtlEvent.prompt :: ([] ++ CtlEvent.prompt :: ([] ++ CtlEvent.prompt ::
        ([] ++ CtlEvent.enterPin :: ([] ++ CtlEvent.pairingSuccessful :: []))))) =
      (.ok (), ["agent KeyboardOnly", "default-agent", "pair AA:BB:CC:DD:EE:FF",
                "1234", "quit"]) :=
  C6_pin_pairing_success "AA:BB:CC:DD:EE:FF" "1234" [] [] [] [] [] []
    CtlEvent.pairingSuccessful
    (fun e he => absurd he (List.not_mem_nil e))
    (fun e he => absurd he (List.not_mem_nil e))
    (fun e he => absurd he (List.not_mem_nil e))
    (fun e he => absurd he (List.not_mem_nil e))
    (fun e he => absurd he (List.not_mem_nil e))
    (Or.inl rfl)

/-- A BlueZ name search never scans. -/
theorem resolveNameInBluez_scans (w : World) (st : MgrState) (d : String) :
    (resolveNameInBluez w st d).2.scans = st.scans := by
  simp only [resolveNameInBluez]
  split
  · rfl
  · split <;> rfl

/-- A BlueZ name search consumes exactly one snapshot. -/
theorem resolveNameInBluez_qidx (w : World) (st : MgrState) (d : String) :
    (resolveNameInBluez w st d).2.qidx = st.qidx + 1 := by
  simp only [resolveNameInBluez]
  split
  · rfl
  · split <;> rfl

/-- A successful scan bumps the scan and snapshot counters by one each. -/
theorem scan_ok_counts (w : World) (st : MgrState) (now : Nat) (devs : List DeviceInfo)
    (st2 : MgrState) (h : scan w st now = (.ok devs, st2)) :
    st2.scans = st.scans + 1 ∧ st2.qidx = st.qidx + 1 := by
  unfold scan at h
  split at h
  · exact absurd (congrArg Prod.fst h) (fun hx => Except.noConfusion hx)
  · split at h
    · exact absurd (congrArg Prod.fst h) (fun hx => Except.noConfusion hx)
    · have h2 := congrArg Prod.snd h
      simp only at h2
      rw [← h2]
      exact ⟨rfl, rfl⟩

/-- C5: resolution procedure. (1) A stripped input containing the address separator
is returned uppercased with the state (cache, snapshot cursor, scan counter)
untouched. (2) A truthy hint-cache hit is returned with the state untouched and no
snapshot query. (3) On a cache miss, a hit of the fresh-snapshot name/alias search
is returned having consumed exactly one snapshot and no scan. (4) When the search
misses, exactly one scan is triggered and the search repeated on the post-scan
snapshot exactly once; if it still misses, the call fails with the unknown-device
error. -/
theorem C5_resolution (w : World) (st : MgrState) (device : String) (now : Nat) :
    (pyContainsChar (pyStrip device) ':' = true →
       resolveDeviceToAddr w st device now = (.ok (pyUpper (pyStrip device)), st)) ∧
    (pyContainsChar (pyStrip device) ':' = false →
     ∀ a, st.cache.lookup (pyStrip device) = some a → a ≠ "" →
       resolveDeviceToAddr w st device now = (.ok a, st)) ∧
    (pyContainsChar (pyStrip device) ':' = false →
     st.cache.lookup (pyStrip device) = none →
     ∀ addr stA, resolveNameInBluez w st (pyStrip device) = (some addr, stA) →
       resolveDeviceToAddr w st device now = (.ok addr, stA) ∧
       stA.scans = st.scans ∧ stA.qidx = st.qidx + 1) ∧
    (pyContainsChar (pyStrip device) ':' = false →
     st.cache.lookup (pyStrip device) = none →
     ∀ stA, resolveNameInBluez w st (pyStrip device) = (none, stA) →
     ∀ devs stB, scan w stA now = (.ok devs, stB) →
     ∀ stC, resolveNameInBluez w stB (pyStrip device) = (none, stC) →
       resolveDeviceToAddr w st device now =
         (.error (.unknownDevice (pyStrip device)), stC) ∧
       stC.scans = st.scans + 1 ∧ stC.qidx = st.qidx + 3) := by
  refine ⟨?_, ?_, ?_, ?_⟩
  · intro h
    simp [resolveDeviceToAddr, h]
  · intro h a ha hne
    have hb : (a == "") = false := by simpa using hne
    simp [resolveDeviceToAddr, h, ha, hb]
  · intro h hc addr stA hres
    have hA : (resolveNameInBluez w st (pyStrip device)).2 = stA := by rw [hres]
    refine ⟨?_, ?_, ?_⟩
    · simp only [resolveDeviceToAddr, h, Bool.false_eq_true, if_false, hc]
      unfold resolveAfterCacheMiss
      rw [hres]
    · rw [← hA]
      exact resolveNameInBluez_scans w st (pyStrip device)
    · rw [← hA]
      exact resolveNameInBluez_qidx w st (pyStrip device)
  · intro h hc stA hresA devs stB hscan stC hresC
    have hA : (resolveNameInBluez w st (pyStrip device)).2 = stA := by rw [hresA]
    have hC : (resolveNameInBluez w stB (pyStrip device)).2 = stC := by rw [hresC]
    have e1 : stA.scans = st.scans := by
      rw [← hA]
      exact resolveNameInBluez_scans w st (pyStrip device)
    have e2 := scan_ok_counts w stA now devs stB hscan
    have e3 : stC.scans = stB.scans := by
      rw [← hC]
      exact resolveNameInBluez_scans w stB (pyStrip device)
    have q1 : stA.qidx = st.qidx + 1 := by
      rw [← hA]
      exact resolveNameInBluez_qidx w st (pyStrip device)
    have q3 : stC.qidx = stB.qidx + 1 := by
      rw [← hC]
      exact resolveNameInBluez_qidx w stB (pyStrip device)
    refine ⟨?_, by omega, by omega⟩
    simp only [resolveDeviceToAddr, h, Bool.false_eq_true, if_false, hc]
    unfold resolveAfterCacheMiss
    rw [hresA]
    dsimp only
    rw [hscan]
    dsimp only
    rw [hresC]

/-- C5 witness: the direct-address path (with surrounding whitespace and lowercase
letters) and the spec's cache-hit example. -/
theorem C5_resolution_witness :
    resolveDeviceToAddr emptyWorld stEmpty " AA:bb:cc:dd:ee:ff " 0 =
      (.ok "AA:BB:CC:DD:EE:FF", stEmpty) ∧
    resolveDeviceToAddr emptyWorld { stEmpty with cache := [("HC-06", "AA:BB:CC:DD:EE:FF")] }
      "HC-06" 0 =
      (.ok "AA:BB:CC:DD:EE:FF", { stEmpty with cache := [("HC-06", "AA:BB:CC:DD:EE:FF")] }) := by
  constructor
  · exact (C5_resolution emptyWorld stEmpty " AA:bb:cc:dd:ee:ff " 0).1 (by decide)
  · exact (C5_resolution emptyWorld
      { stEmpty with cache := [("HC-06", "AA:BB:CC:DD:EE:FF")] } "HC-06" 0).2.1
      (by decide) "AA:BB:CC:DD:EE:FF" (by decide) (by decide)

/-- C3 counterexample: querying an unresolvable name makes `is_paired` and
`is_connected` raise the unknown-device error instead of returning `false` — the
source has no exception handling around the status query. -/
theorem C3_counterexample :
    (isPaired emptyWorld stEmpty "ghost" 0).1 = .error (.unknownDevice "ghost") ∧
    (isConnected emptyWorld stEmpty "ghost" 0).1 = .error (.unknownDevice "ghost") :=
  ⟨by decide, by decide⟩

/-- C3 (amended): `is_paired` and `is_connected` propagate every status-query
failure (failed resolution, or a resolved address absent from the current
snapshot) as the corresponding error instead of degrading to `false`; when the
device is present they return the current `Paired` / `Connected` property. -/
theorem C3_status_probes (w : World) (st : MgrState) (device : String) (now : Nat) :
    (∀ e st1, resolveDeviceToAddr w st device now = (.error e, st1) →
       isPaired w st device now = (.error e, st1) ∧
       isConnected w st device now = (.error e, st1)) ∧
    (∀ addr st1 e st2, resolveDeviceToAddr w st device now = (.ok addr, st1) →
       getDevicePathAndProps w st1 addr = (.error e, st2) →
       isPaired w st device now = (.error e, st2) ∧
       isConnected w st device now = (.error e, st2)) ∧
    (∀ addr st1 pp st2, resolveDeviceToAddr w st device now = (.ok addr, st1) →
       getDevicePathAndProps w st1 addr = (.ok pp, st2) →
       isPaired w st device now = (.ok pp.2.Paired, st2) ∧
       isConnected w st device now = (.ok pp.2.Connected, st2)) := by
  refine ⟨?_, ?_, ?_⟩
  · intro e st1 hres
    constructor
    · unfold isPaired getDeviceInfo
      rw [hres]
    · unfold isConnected getDeviceInfo
      rw [hres]
  · intro addr st1 e st2 hres hpp
    constructor
    · unfold isPaired getDeviceInfo
      rw [hres]
      dsimp only
      rw [hpp]
    · unfold isConnected getDeviceInfo
      rw [hres]
      dsimp only
      rw [hpp]
  · intro addr st1 pp st2 hres hpp
    constructor
    · unfold isPaired getDeviceInfo
      rw [hres]
      dsimp only
      rw [hpp]
      rfl
    · unfold isConnected getDeviceInfo
      rw [hres]
      dsimp only
      rw [hpp]
      rfl

/-- C3 witness: with the HC-06 module present in the snapshot, the probes return
its current `Paired` / `Connected` properties. -/
theorem C3_status_probes_witness :
    isPaired hcWorld stEmpty "AA:BB:CC:DD:EE:FF" 0 =
      (.ok true, { stEmpty with qidx := 1 }) ∧
    isConnected hcWorld stEmpty "AA:BB:CC:DD:EE:FF" 0 =
      (.ok false, { stEmpty with qidx := 1 }) := by
  have h := (C3_status_probes hcWorld stEmpty "AA:BB:CC:DD:EE:FF" 0).2.2
    "AA:BB:CC:DD:EE:FF" stEmpty ("/org/bluez/hci0/dev_AA_BB_CC_DD_EE_FF", hcProps)
    { stEmpty with qidx := 1 } (by decide) (by decide)
  exact ⟨h.1, h.2⟩

/-- Scan failures are the adapter-missing and discovery-start errors only. -/
theorem scan_error_shape (w : World) (st : MgrState) (now : Nat) (e : BtError)
    (st2 : MgrState) (h : scan w st now = (.error e, st2)) :
    e = .adapterNotFound ∨ e = .startDiscoveryFailed := by
  unfold scan at h
  split at h
  · have h1 := congrArg Prod.fst h
    simp only at h1
    exact Or.inl (Except.error.inj h1).symm
  · split at h
    · have h1 := congrArg Prod.fst h
      simp only at h1
      exact Or.inr (Except.error.inj h1).symm
    · exact absurd (congrArg Prod.fst h) (fun hx => Except.noConfusion hx)

/-- Failures of the post-cache resolution procedure: unknown device or a scan
failure. -/
theorem resolveAfterCacheMiss_error_shape (w : World) (st : MgrState) (d : String)
    (now : Nat) (e : BtError) (st1 : MgrState)
    (h : resolveAfterCacheMiss w st d now = (.error e, st1)) :
    e = .unknownDevice d ∨ e = .adapterNotFound ∨ e = .startDiscoveryFailed := by
  unfold resolveAfterCacheMiss at h
  split at h
  · exact absurd (congrArg Prod.fst h) (fun hx => Except.noConfusion hx)
  · split at h
    · rename_i e2 st2 hscan
      have h1 := congrArg Prod.fst h
      simp only at h1
      exact Or.inr ((Except.error.inj h1) ▸ scan_error_shape w _ now e2 st2 hscan)
    · split at h
      · exact absurd (congrArg Prod.fst h) (fun hx => Except.noConfusion hx)
      · have h1 := congrArg Prod.fst h
        simp only at h1
        exact Or.inl (Except.error.inj h1).symm

/-- Resolution failures: unknown device or a scan failure. -/
theorem resolveDeviceToAddr_error_shape (w : World) (st : MgrState) (device : String)
    (now : Nat) (e : BtError) (st1 : MgrState)
    (h : resolveDeviceToAddr w st device now = (.error e, st1)) :
    e = .unknownDevice (pyStrip device) ∨ e = .adapterNotFound ∨
      e = .startDiscoveryFailed := by
  unfold resolveDeviceToAddr at h
  dsimp only at h
  split at h
  · exact absurd (congrArg Prod.fst h) (fun hx => Except.noConfusion hx)
  · split at h
    · split at h
      · exact resolveAfterCacheMiss_error_shape w st _ now e st1 h
      · exact absurd (congrArg Prod.fst h) (fun hx => Except.noConfusion hx)
    · exact resolveAfterCacheMiss_error_shape w st _ now e st1 h

/-- C1 counterexample: with the device visible and its link-level `Connect()`
raising a failure that carries neither profile-unavailable signature, `connect`
does not fail with the connect error — it proceeds to service discovery and the
socket open, and succeeds. -/
theorem C1_counterexample :
    connect hcWorld stEmpty "AA:BB:CC:DD:EE:FF" 0 =
      (.ok 0, { cache := [],
                sessions := [Session.make "AA:BB:CC:DD:EE:FF" 1 (some "HC-06") "HC-06" 0],
                connections := [("AA:BB:CC:DD:EE:FF", 0)], qidx := 1, scans := 0 }) ∧
    strContains "org.bluez.Error.NotAvailable"
      "org.bluez.Error.Failed: Connection refused" = false ∧
    strContains "br-connection-profile-unavailable"
      "org.bluez.Error.Failed: Connection refused" = false :=
  ⟨by decide, by decide, by decide⟩

/-- C1 (amended): the whole link-level connect block of `connect` sits inside
`except BluetoothError: pass`, so every link-level failure — profile-unavailable
or not — is swallowed: the outcome of `connect` is independent of the
`Device1.Connect()` result, and the link-connect error can never escape
`connect`; fatal errors can only come from resolution, service discovery or the
socket open. -/
theorem C1_link_connect_failures_swallowed :
    (∀ (w : World) (o : String → Option String) (st : MgrState) (device : String)
       (now : Nat),
       connect { w with devConnect := o } st device now = connect w st device now) ∧
    (∀ (w : World) (st : MgrState) (device : String) (now : Nat) (a : String),
       (connect w st device now).1 ≠ .error (.devConnectFailed a)) := by
  constructor
  · intro w o st device now
    rfl
  · intro w st device now a hcon
    unfold connect at hcon
    rcases hres : resolveDeviceToAddr w st device now with ⟨r, st1⟩
    rw [hres] at hcon
    cases r with
    | error e =>
      dsimp only at hcon
      have he : e = .devConnectFailed a := Except.error.inj hcon
      rcases resolveDeviceToAddr_error_shape w st device now e st1 hres with h1 | h1 | h1 <;>
        · rw [he] at h1
          exact BtError.noConfusion h1
    | ok addr =>
      dsimp only at hcon
      cases hrf : rfcommLookup (w.findService addr) with
      | none =>
        rw [hrf] at hcon
        dsimp only at hcon
        exact BtError.noConfusion (Except.error.inj hcon)
      | some port =>
        rw [hrf] at hcon
        dsimp only at hcon
        by_cases hsk : w.sockConnect addr port
        · rw [hsk] at hcon
          simp only [if_true] at hcon
          exact Except.noConfusion hcon
        · rw [eq_false_of_ne_true hsk] at hcon
          simp only [Bool.false_eq_true, if_false] at hcon
          exact BtError.noConfusion (Except.error.inj hcon)

/-- C9: on the PIN path of `pair`, after the interactive-shell pairing succeeds the
trust step references the never-bound `dev`, raising a `NameError` that the bare
`except` swallows: no Trust call is issued on D-Bus (last component `false`), the
device's `Trusted` property is never written, and `pair` still returns success. -/
theorem C9_pin_path_skips_trust (w : World) (st : MgrState) (device : String)
    (pin : String) (trust : Bool) (stream : List CtlEvent) (now : Nat)
    (addr : String) (st1 : MgrState) (sent : List String)
    (hpin : pin ≠ "")
    (hres : resolveDeviceToAddr w st device now = (.ok addr, st1))
    (hshell : pairWithPinViaBluetoothctl addr pin stream = (.ok (), sent)) :
    pairDevice w st device (some pin) trust stream now = (.ok (), st1, sent, false) := by
  unfold pairDevice
  rw [hres]
  dsimp only [Option.getD_some]
  have ht : pyTruthyStr (some pin) = true := by simpa [pyTruthyStr] using hpin
  rw [if_pos ht]
  rw [hshell]

/-- C9 witness: a concrete PIN-pairing run with `trust = true` returns success with
no Trust call issued. -/
theorem C9_pin_path_skips_trust_witness :
    pairDevice hcWorld stEmpty "AA:BB:CC:DD:EE:FF" (some "1234") true
      [CtlEvent.prompt, CtlEvent.prompt, CtlEvent.prompt, CtlEvent.enterPin,
       CtlEvent.pairingSuccessful] 0 =
      (.ok (), stEmpty, ["agent KeyboardOnly", "default-agent",
        "pair AA:BB:CC:DD:EE:FF", "1234", "quit"], false) :=
  C9_pin_path_skips_trust hcWorld stEmpty "AA:BB:CC:DD:EE:FF" "1234" true
    [CtlEvent.prompt, CtlEvent.prompt, CtlEvent.prompt, CtlEvent.enterPin,
     CtlEvent.pairingSuccessful] 0 "AA:BB:CC:DD:EE:FF" stEmpty
    ["agent KeyboardOnly", "default-agent", "pair AA:BB:CC:DD:EE:FF", "1234", "quit"]
    (by decide) (by decide) (by decide)

/-- A BlueZ name search touches neither the session registry nor the connection
table. -/
theorem resolveNameInBluez_frame (w : World) (st : MgrState) (d : String) :
    (resolveNameInBluez w st d).2.sessions = st.sessions ∧
    (resolveNameInBluez w st d).2.connections = st.connections := by
  simp only [resolveNameInBluez]
  split
  · exact ⟨rfl, rfl⟩
  · split <;> exact ⟨rfl, rfl⟩

/-- A scan touches neither the session registry nor the connection table. -/
theorem scan_frame (w : World) (st : MgrState) (now : Nat) :
    (scan w st now).2.sessions = st.sessions ∧
    (scan w st now).2.connections = st.connections := by
  unfold scan
  split
  · exact ⟨rfl, rfl⟩
  · split
    · exact ⟨rfl, rfl⟩
    · exact ⟨rfl, rfl⟩

/-- The post-cache resolution procedure touches neither the session registry nor
the connection table. -/
theorem resolveAfterCacheMiss_frame (w : World) (st : MgrState) (d : String)
    (now : Nat) :
    (resolveAfterCacheMiss w st d now).2.sessions = st.sessions ∧
    (resolveAfterCacheMiss w st d now).2.connections = st.connections := by
  unfold resolveAfterCacheMiss
  rcases h1 : resolveNameInBluez w st d with ⟨r1, st1⟩
  have f1 := resolveNameInBluez_frame w st d
  rw [h1] at f1
  simp only at f1
  cases r1 with
  | some addr => exact f1
  | none =>
    dsimp only
    rcases h2 : scan w st1 now with ⟨r2, st2⟩
    have f2 := scan_frame w st1 now
    rw [h2] at f2
    simp only at f2
    cases r2 with
    | error e => exact ⟨f2.1.trans f1.1, f2.2.trans f1.2⟩
    | ok devs =>
      dsimp only
      rcases h3 : resolveNameInBluez w st2 d with ⟨r3, st3⟩
      have f3 := resolveNameInBluez_frame w st2 d
      rw [h3] at f3
      simp only at f3
      cases r3 with
      | some addr => exact ⟨f3.1.trans (f2.1.trans f1.1), f3.2.trans (f2.2.trans f1.2)⟩
      | none => exact ⟨f3.1.trans (f2.1.trans f1.1), f3.2.trans (f2.2.trans f1.2)⟩

/-- Resolution touches neither the session registry nor the connection table. -/
theorem resolveDeviceToAddr_frame (w : World) (st : MgrState) (device : String)
    (now : Nat) :
    (resolveDeviceToAddr w st device now).2.sessions = st.sessions ∧
    (resolveDeviceToAddr w st device now).2.connections = st.connections := by
  unfold resolveDeviceToAddr
  dsimp only
  split
  · exact ⟨rfl, rfl⟩
  · split
    · split
      · exact resolveAfterCacheMiss_frame w st _ now
      · exact ⟨rfl, rfl⟩
    · exact resolveAfterCacheMiss_frame w st _ now

/-- After deleting a key, looking it up misses. -/
theorem lookup_removeKey_self {β : Type} (m : List (String × β)) (k : String) :
    (removeKey m k).lookup k = none := by
  induction m with
  | nil => rfl
  | cons p t ih =>
    rcases p with ⟨a, b⟩
    show (List.filter (fun p => !(p.1 == k)) ((a, b) :: t)).lookup k = none
    rw [List.filter_cons]
    by_cases h : (a == k) = true
    · simp only [h, Bool.not_true, Bool.false_eq_true, if_false]
      exact ih
    · have h' := eq_false_of_ne_true h
      have h2 : (k == a) = false :=
        beq_eq_false_iff_ne.mpr (Ne.symm (beq_eq_false_iff_ne.mp h'))
      simp only [h', Bool.not_false, if_true, List.lookup_cons, h2]
      exact ih

/-- Overwriting pass of a dict assignment: the new value is found. -/
theorem lookup_map_overwrite {β : Type} (m : List (String × β)) (k : String) (v : β)
    (hany : m.any (fun p => p.1 == k) = true) :
    (m.map (fun p => if p.1 == k then (k, v) else p)).lookup k = some v := by
  induction m with
  | nil => simp at hany
  | cons p t ih =>
    rcases p with ⟨a, b⟩
    rw [List.map_cons]
    by_cases hk : (a == k) = true
    · rw [if_pos hk]
      simp [List.lookup_cons]
    · rw [if_neg hk]
      have h' := eq_false_of_ne_true hk
      have h2 : (k == a) = false :=
        beq_eq_false_iff_ne.mpr (Ne.symm (beq_eq_false_iff_ne.mp h'))
      simp only [List.lookup_cons, h2]
      refine ih ?_
      simp only [List.any_cons, h', Bool.false_or] at hany
      exact hany

/-- Appending pass of a dict assignment: the new value is found. -/
theorem lookup_append_new {β : Type} (m : List (String × β)) (k : String) (v : β)
    (hnone : m.any (fun p => p.1 == k) = false) :
    (m ++ [(k, v)]).lookup k = some v := by
  induction m with
  | nil => simp [List.lookup]
  | cons p t ih =>
    rcases p with ⟨a, b⟩
    simp only [List.any_cons, Bool.or_eq_false_iff] at hnone
    have h2 : (k == a) = false :=
      beq_eq_false_iff_ne.mpr (Ne.symm (beq_eq_false_iff_ne.mp hnone.1))
    rw [List.cons_append]
    simp only [List.lookup_cons, h2]
    exact ih hnone.2

/-- Looking up the just-written key of a dict assignment yields the new value. -/
theorem lookup_upsert_self {β : Type} (m : List (String × β)) (k : String) (v : β) :
    (upsert m k v).lookup k = some v := by
  unfold upsert
  by_cases hany : m.any (fun p => p.1 == k) = true
  · rw [if_pos hany]
    exact lookup_map_overwrite m k v hany
  · rw [if_neg hany]
    exact lookup_append_new m k v (eq_false_of_ne_true hany)

/-- Every entry of a dict assignment is either the written pair or a surviving
entry under a different key. -/
theorem mem_upsert {β : Type} {m : List (String × β)} {k : String} {v : β}
    {p : String × β} (h : p ∈ upsert m k v) :
    p = (k, v) ∨ (p ∈ m ∧ (p.1 == k) = false) := by
  unfold upsert at h
  by_cases hany : m.any (fun q => q.1 == k) = true
  · rw [if_pos hany] at h
    rcases List.mem_map.mp h with ⟨q, hq, hfq⟩
    by_cases hk : (q.1 == k) = true
    · left
      rw [← hfq, if_pos hk]
    · right
      rw [← hfq, if_neg hk]
      exact ⟨hq, eq_false_of_ne_true hk⟩
  · rw [if_neg hany] at h
    rcases List.mem_append.mp h with hm | hm
    · right
      refine ⟨hm, ?_⟩
      by_contra hx
      exact hany (List.any_eq_true.mpr ⟨p, hm, eq_true_of_ne_false hx⟩)
    · left
      simpa using hm

/-- Mutating one registry slot leaves every other slot unchanged. -/
theorem updateAt_get?_ne {α : Type} (l : List α) (i j : Nat) (f : α → α) (h : j ≠ i) :
    (updateAt l i f).get? j = l.get? j := by
  induction l generalizing i j with
  | nil => rfl
  | cons a t ih =>
    cases i with
    | zero =>
      cases j with
      | zero => exact absurd rfl h
      | succ j2 => rfl
    | succ i2 =>
      cases j with
      | zero => rfl
      | succ j2 => exact ih i2 j2 (fun he => h (by rw [he]))

/-- `disconnect_all` leaves every registry slot not referenced by the table
unchanged. -/
theorem foldl_disconnect_sessions_get? (conns : List (String × Nat)) (stX : MgrState)
    (i : Nat) (now : Nat) (h : ∀ p ∈ conns, p.2 ≠ i) :
    ((conns.foldl (fun acc p =>
        { acc with sessions := updateAt acc.sessions p.2 (fun c => c.disconnect now) })
        stX).sessions).get? i = stX.sessions.get? i := by
  induction conns generalizing stX with
  | nil => rfl
  | cons p t ih =>
    have hp := h p (List.mem_cons_self p t)
    rw [List.foldl_cons]
    rw [ih _ (fun q hq => h q (List.mem_cons_of_mem p hq))]
    exact updateAt_get?_ne stX.sessions p.2 i _ (fun he => hp he.symm)

/-- Registry-slot form of the previous lemma for `disconnectAll`. -/
theorem disconnectAll_sessions_get? (st : MgrState) (i : Nat) (now : Nat)
    (h : ∀ p ∈ st.connections, p.2 ≠ i) :
    (disconnectAll st now).sessions.get? i = st.sessions.get? i := by
  unfold disconnectAll
  exact foldl_disconnect_sessions_get? st.connections st i now h

/-- Shape of a `disconnect` run whose resolution succeeded: it returns success, the
resolved address is no longer in the table, and when it was not in the table to
begin with, neither the registry nor the table changed (no teardown). -/
theorem disconnectDevice_shape (w : World) (st : MgrState) (device : String)
    (now : Nat) (addr : String) (stA : MgrState)
    (hres : resolveDeviceToAddr w st device now = (.ok addr, stA)) :
    ∃ st1, disconnectDevice w st device now = (.ok (), st1) ∧
      st1.connections.lookup addr = none ∧
      (stA.connections.lookup addr = none →
        st1.sessions = stA.sessions ∧ st1.connections = stA.connections) := by
  unfold disconnectDevice
  rw [hres]
  dsimp only
  cases hl : stA.connections.lookup addr with
  | some sid =>
    refine ⟨_, rfl, ?_, ?_⟩
    · exact lookup_removeKey_self stA.connections addr
    · intro hcontra
      exact Option.noConfusion hcontra
  | none =>
    exact ⟨_, rfl, hl, fun _ => ⟨rfl, rfl⟩⟩

/-- C8: disconnect idempotence. When the first `disconnect(device)` call succeeded
and the device resolves to the same address again, the second call also returns
success, finds no registered session, and performs no teardown (registry and table
are untouched). At the session level a second `Session.disconnect` leaves the
socket closed and `is_connected` false, like the first. -/
theorem C8_disconnect_idempotent :
    (∀ (w : World) (st : MgrState) (device : String) (now1 now2 : Nat)
       (addr : String) (st1 : MgrState),
       disconnectDevice w st device now1 = (.ok (), st1) →
       (resolveDeviceToAddr w st device now1).1 = .ok addr →
       (resolveDeviceToAddr w st1 device now2).1 = .ok addr →
       ∃ st2, disconnectDevice w st1 device now2 = (.ok (), st2) ∧
         st2.connections = st1.connections ∧ st2.sessions = st1.sessions) ∧
    (∀ (c : Session) (t1 t2 : Nat),
       ((c.disconnect t1).disconnect t2).sockOpen = false ∧
       ((c.disconnect t1).disconnect t2).info.is_connected = false ∧
       (c.disconnect t1).sockOpen = false ∧
       (c.disconnect t1).info.is_connected = false) := by
  constructor
  · intro w st device now1 now2 addr st1' h1 hres1 hres2
    rcases hA : resolveDeviceToAddr w st device now1 with ⟨r1, stA⟩
    have hr1 : r1 = .ok addr := by
      rw [hA] at hres1
      exact hres1
    subst hr1
    obtain ⟨st1, hd1, hnone, _⟩ := disconnectDevice_shape w st device now1 addr stA hA
    have hsame : st1 = st1' := by
      rw [hd1] at h1
      have h2 := congrArg Prod.snd h1
      simpa using h2
    subst hsame
    rcases hB : resolveDeviceToAddr w st1 device now2 with ⟨r2, stB⟩
    have hr2 : r2 = .ok addr := by
      rw [hB] at hres2
      exact hres2
    subst hr2
    have hframe := resolveDeviceToAddr_frame w st1 device now2
    rw [hB] at hframe
    simp only at hframe
    have hnoneB : stB.connections.lookup addr = none := by
      rw [hframe.2]
      exact hnone
    obtain ⟨st2, hd2, _, hkeep⟩ := disconnectDevice_shape w st1 device now2 addr stB hB
    obtain ⟨hs2, hc2⟩ := hkeep hnoneB
    exact ⟨st2, hd2, by rw [hc2, hframe.2], by rw [hs2, hframe.1]⟩
  · intro c t1 t2
    exact ⟨rfl, rfl, rfl, rfl⟩

/-- A manager state with one live session to the HC-06 module registered. -/
def stConn : MgrState :=
  { sessions := [sessA], connections := [("AA:BB:CC:DD:EE:FF", 0)] }

/-- The manager state after the first `disconnect` on `stConn`. -/
def stAfterFirstDisc : MgrState :=
  { cache := [], sessions := [sessA.disconnect 3], connections := [], qidx := 1,
    scans := 0 }

/-- C8 witness: on a state holding one session, the call after the first disconnect
returns success and changes neither the registry nor the table. -/
theorem C8_disconnect_idempotent_witness :
    ∃ st2, disconnectDevice hcWorld stAfterFirstDisc "AA:BB:CC:DD:EE:FF" 4 =
        (.ok (), st2) ∧
      st2.connections = stAfterFirstDisc.connections ∧
      st2.sessions = stAfterFirstDisc.sessions :=
  C8_disconnect_idempotent.1 hcWorld stConn "AA:BB:CC:DD:EE:FF" 3 4
    "AA:BB:CC:DD:EE:FF" stAfterFirstDisc (by decide) (by decide) (by decide)

/-- The link-level connect block always consumes exactly one snapshot and changes
nothing else, on every outcome. -/
theorem connectLinkInner_snd (w : World) (st : MgrState) (addr : String) :
    (connectLinkInner w st addr).2 = { st with qidx := st.qidx + 1 } := rfl

/-- C10: when `connect` succeeds on an address that already has a registered
session, the new session silently replaces the table entry: the fresh registry
slot is returned, the old session's registry slot is untouched (its socket stays
whatever it was, its stop flag is not set), the table now maps the address to the
new slot only, the old slot is referenced by no table entry, and consequently
`disconnect_all` does not touch it either. -/
theorem C10_connect_replaces_and_orphans (w : World) (st : MgrState) (device : String)
    (now : Nat) (addr : String) (stA : MgrState) (oldSid sid : Nat) (st' : MgrState)
    (hres : resolveDeviceToAddr w st device now = (.ok addr, stA))
    (hconn : connect w st device now = (.ok sid, st'))
    (hold : st.connections.lookup addr = some oldSid)
    (hlt : oldSid < st.sessions.length)
    (honly : ∀ p ∈ st.connections, p.2 = oldSid → p.1 = addr) :
    sid = st.sessions.length ∧
    st'.sessions.get? oldSid = st.sessions.get? oldSid ∧
    st'.connections.lookup addr = some sid ∧
    sid ≠ oldSid ∧
    (∀ p ∈ st'.connections, p.2 ≠ oldSid) ∧
    (disconnectAll st' now).sessions.get? oldSid = st.sessions.get? oldSid := by
  have hframe := resolveDeviceToAddr_frame w st device now
  rw [hres] at hframe
  simp only at hframe
  unfold connect at hconn
  rw [hres] at hconn
  dsimp only at hconn
  cases hrf : rfcommLookup (w.findService addr) with
  | none =>
    rw [hrf] at hconn
    dsimp only at hconn
    exact absurd hconn (fun hx => Except.noConfusion (congrArg Prod.fst hx))
  | some port =>
    rw [hrf] at hconn
    dsimp only at hconn
    by_cases hsk : w.sockConnect addr port
    · rw [if_pos hsk] at hconn
      rw [connectLinkInner_snd] at hconn
      dsimp only at hconn
      have hfst := congrArg Prod.fst hconn
      have hsnd := congrArg Prod.snd hconn
      simp only at hfst hsnd
      have hsid : stA.sessions.length = sid := Except.ok.inj hfst
      have hlen : stA.sessions.length = st.sessions.length := by rw [hframe.1]
      have hgoal1 : sid = st.sessions.length := by omega
      have hst' := hsnd.symm
      have hne : sid ≠ oldSid := by omega
      have hmemo : ∀ p ∈ st'.connections, p.2 ≠ oldSid := by
        intro p hp
        rw [hst'] at hp
        rcases mem_upsert hp with h1 | h1
        · rw [h1]
          show stA.sessions.length ≠ oldSid
          omega
        · intro hx
          have hpm : p ∈ st.connections := by
            rw [← hframe.2]
            exact h1.1
          have hpa := honly p hpm hx
          rw [hpa] at h1
          simp at h1
      have hget : st'.sessions.get? oldSid = st.sessions.get? oldSid := by
        rw [hst']
        show (stA.sessions ++ _).get? oldSid = st.sessions.get? oldSid
        rw [List.get?_append (by omega)]
        rw [hframe.1]
      refine ⟨hgoal1, hget, ?_, hne, hmemo, ?_⟩
      · rw [hst']
        show (upsert stA.connections addr stA.sessions.length).lookup addr = some sid
        rw [hsid]
        exact lookup_upsert_self stA.connections addr sid
      · rw [disconnectAll_sessions_get? st' oldSid now hmemo]
        exact hget
    · rw [if_neg hsk] at hconn
      exact absurd hconn (fun hx => Except.noConfusion (congrArg Prod.fst hx))

/-- The manager state after a second `connect` on `stConn`, holding both the
orphaned old session and the replacement. -/
def stReplaced : MgrState :=
  { cache := [],
    sessions := [sessA, Session.make "AA:BB:CC:DD:EE:FF" 1 (some "HC-06") "HC-06" 5],
    connections := [("AA:BB:CC:DD:EE:FF", 1)], qidx := 1, scans := 0 }

/-- C10 witness: connecting again over the registered session orphans slot 0. -/
theorem C10_connect_replaces_and_orphans_witness :
    1 = stConn.sessions.length ∧
    stReplaced.sessions.get? 0 = stConn.sessions.get? 0 ∧
    stReplaced.connections.lookup "AA:BB:CC:DD:EE:FF" = some 1 ∧
    1 ≠ 0 ∧
    (∀ p ∈ stReplaced.connections, p.2 ≠ 0) ∧
    (disconnectAll stReplaced 5).sessions.get? 0 = stConn.sessions.get? 0 :=
  C10_connect_replaces_and_orphans hcWorld stConn "AA:BB:CC:DD:EE:FF" 5
    "AA:BB:CC:DD:EE:FF" stConn 0 1 stReplaced (by decide) (by decide) (by decide)
    (by decide) (by decide)

end RPiBt
